import Mathlib

/-!
# Verification of the GolangCURD user service (src/main.go)

Shallow embedding of the CRUD service in `src/main.go`: the `User` entity
and its validation, the data-access layer over an explicit table state,
and the five HTTP handlers with their response codes, bodies, and an
event trace recording connection open/close and data-access operations.

Machine integers: Go `int` is modelled as `Int`; `strconv.Atoi` is
modelled with the signed 64-bit range check it performs on a 64-bit
platform (out-of-range numerals return an error).
-/

namespace GoCrud

/-- The `User` struct of `main.go` (fields `ID int`, `Name string`,
`Email string`). -/
structure User where
  ID : Int
  Name : String
  Email : String
deriving DecidableEq, Repr

/-! ## Email validation: the regex `^[a-zA-Z0-9._%+-]+@[a-zA-Z0-9.-]+\.[a-zA-Z]{2,}$`

`isValidEmail` in `main.go` asks whether the whole string is in the
language of this pattern.  The character classes are ASCII.  We implement
full-string membership by a backtracking matcher over the character list. -/

/-- Characters of the local-part class `[a-zA-Z0-9._%+-]`. -/
def isEmailLocalChar (c : Char) : Bool :=
  c.isAlphanum || c == '.' || c == '_' || c == '%' || c == '+' || c == '-'

/-- Characters of the domain class `[a-zA-Z0-9.-]`. -/
def isEmailDomainChar (c : Char) : Bool :=
  c.isAlphanum || c == '.' || c == '-'

/-- Does `cs` match `[a-zA-Z]{2,}` anchored to the end of input? -/
def matchTLD (cs : List Char) : Bool :=
  decide (2 ≤ cs.length) && cs.all Char.isAlpha

/-- Does `cs` match `[a-zA-Z0-9.-]*\.[a-zA-Z]{2,}` anchored to the end? -/
def matchDomRest : List Char → Bool
  | [] => false
  | c :: rest =>
      (c == '.' && matchTLD rest) || (isEmailDomainChar c && matchDomRest rest)

/-- Does `cs` match `[a-zA-Z0-9.-]+\.[a-zA-Z]{2,}` anchored to the end? -/
def matchDomain : List Char → Bool
  | [] => false
  | c :: rest => isEmailDomainChar c && matchDomRest rest

/-- Does `cs` match `[a-zA-Z0-9._%+-]*@[a-zA-Z0-9.-]+\.[a-zA-Z]{2,}` anchored
to the end? -/
def matchLocalRest : List Char → Bool
  | [] => false
  | c :: rest =>
      (c == '@' && matchDomain rest) || (isEmailLocalChar c && matchLocalRest rest)

/-- `isValidEmail` of `main.go`: full-string match of
`^[a-zA-Z0-9._%+-]+@[a-zA-Z0-9.-]+\.[a-zA-Z]{2,}$`. -/
def isValidEmail (email : String) : Bool :=
  match email.data with
  | [] => false
  | c :: rest => isEmailLocalChar c && matchLocalRest rest

/-- `(*User).Validate` of `main.go`: empty name, then empty email, then
the regex, in that order; the error carries the Go error message. -/
def Validate (u : User) : Except String Unit :=
  if u.Name = "" then .error "name is required"
  else if u.Email = "" then .error "email is required"
  else if !isValidEmail u.Email then .error "invalid email format"
  else .ok ()

/-! ## `strconv.Atoi` and `parseID`

`parseID` reads the `{id}` path variable (`mux.Vars(r)["id"]`, the empty
string when the segment is absent) and runs `strconv.Atoi` on it.
`Atoi` parses an optional single `+`/`-` sign followed by one or more
ASCII decimal digits and errors on anything else; on a 64-bit platform it
also errors (`ErrRange`) when the value is outside the signed 64-bit
`int` range. -/

/-- Numeric value of a decimal digit string, most significant first
(the accumulator fold `strconv` performs). -/
def digitsVal (cs : List Char) : Nat :=
  cs.foldl (fun a c => a * 10 + (c.toNat - 48)) 0

/-- Parse a non-empty all-digit string to its value; `none` if empty or
any character is not an ASCII digit. -/
def parseDigitsAux : List Char → Nat → Option Nat
  | [], acc => some acc
  | c :: rest, acc =>
      if c.isDigit then parseDigitsAux rest (acc * 10 + (c.toNat - 48))
      else none

/-- All-digit check plus value; `none` on the empty list too. -/
def parseDigits (cs : List Char) : Option Nat :=
  match cs with
  | [] => none
  | _ => parseDigitsAux cs 0

/-- Largest signed 64-bit integer, `2^63 - 1`. -/
def maxInt64 : Int := 9223372036854775807

/-- `strconv.Atoi` (equivalently `ParseInt(s, 10, 0)` on a 64-bit
platform): optional sign, one or more digits, signed 64-bit range. -/
def Atoi (s : String) : Except Unit Int :=
  match s.data with
  | [] => .error ()
  | c :: rest =>
      if c = '+' then
        match parseDigits rest with
        | some n => if (n : Int) ≤ maxInt64 then .ok n else .error ()
        | none => .error ()
      else if c = '-' then
        match parseDigits rest with
        | some n => if (n : Int) ≤ maxInt64 + 1 then .ok (-(n : Int)) else .error ()
        | none => .error ()
      else
        match parseDigits (c :: rest) with
        | some n => if (n : Int) ≤ maxInt64 then .ok n else .error ()
        | none => .error ()

/-- `parseID` of `main.go`: `strconv.Atoi(mux.Vars(r)["id"])`; a missing
segment reads as the empty string. -/
def parseID (pathId : Option String) : Except Unit Int :=
  Atoi (pathId.getD "")

/-! ## Data-access layer over an explicit store state

The MySQL store is modelled as a table of rows plus the auto-increment
counter.  `broken` injects a store-level failure: when set, every
query/exec returns an error, modelling the "any store error" cases of
the handlers. -/

/-- Store-level errors: `sql.ErrNoRows` from a single-row scan, and any
other query/exec failure. -/
inductive DBError where
  | noRows
  | storeError
deriving DecidableEq, Repr

/-- The `users` table (`id PRIMARY KEY AUTO_INCREMENT, name, email`) plus
a failure-injection flag for store errors. -/
structure DBState where
  rows : List User
  nextId : Int
  broken : Bool
deriving DecidableEq, Repr

/-- `GetAllUsers` of `main.go`: `SELECT id, name, email FROM users`,
scanning every row in order.  When there are no rows the Go slice stays
`nil` (the loop body never runs) and no error is returned. -/
def GetAllUsers (st : DBState) : Except DBError (List User) :=
  if st.broken then .error .storeError else .ok st.rows

/-- `CreateUser` of `main.go`: parameterized `INSERT INTO users (name,
email) VALUES (?, ?)`; the store assigns the auto-increment id. -/
def CreateUser (st : DBState) (name email : String) : Except DBError DBState :=
  if st.broken then .error .storeError
  else .ok { st with rows := st.rows ++ [⟨st.nextId, name, email⟩],
                     nextId := st.nextId + 1 }

/-- `GetUser` of `main.go`: `SELECT ... WHERE id = ?` via `QueryRow`;
scanning yields `sql.ErrNoRows` when no row matches. -/
def GetUser (st : DBState) (id : Int) : Except DBError User :=
  if st.broken then .error .storeError
  else
    match st.rows.find? (fun u => u.ID == id) with
    | some u => .ok u
    | none => .error .noRows

/-- `UpdateUser` of `main.go`: `UPDATE users SET name = ?, email = ?
WHERE id = ?`; the result (rows affected) is discarded, so a zero-row
match is not an error. -/
def UpdateUser (st : DBState) (id : Int) (name email : String) :
    Except DBError DBState :=
  if st.broken then .error .storeError
  else
    .ok { st with
          rows := st.rows.map fun u =>
            if u.ID == id then { u with Name := name, Email := email } else u }

/-- `DeleteUser` of `main.go`: `DELETE FROM users WHERE id = ?`; the
result is discarded, so a zero-row match is not an error. -/
def DeleteUser (st : DBState) (id : Int) : Except DBError DBState :=
  if st.broken then .error .storeError
  else .ok { st with rows := st.rows.filter (fun u => !(u.ID == id)) }

/-! ## HTTP responses and handler traces -/

/-- JSON text of one `User` as `encoding/json` produces for this struct
(`{"id":N,"name":S,"email":E}`; string escaping is not needed by any
theorem below and is elided). -/
def encodeUser (u : User) : String :=
  "\x7b\"id\":" ++ toString u.ID ++ ",\"name\":\"" ++ u.Name
    ++ "\",\"email\":\"" ++ u.Email ++ "\"\x7d"

/-- JSON text of a `[]User` slice as `encoding/json` produces it: a `nil`
slice — which is what `GetAllUsers` returns when the table is empty,
since `append` is never reached — marshals to `null`, a non-empty slice
to a JSON array. -/
def encodeUsers (us : List User) : String :=
  match us with
  | [] => "null"
  | _ => "[" ++ String.intercalate "," (us.map encodeUser) ++ "]"

/-- An HTTP response: status code and body text.  `http.Error` and
`fmt.Fprintln` append a newline to their message; `json.Encoder.Encode`
appends a newline to the JSON text. -/
structure Response where
  status : Nat
  body : String
deriving DecidableEq, Repr

/-- Events a handler performs against the store, in order: opening the
connection handle, a data-access operation (query/exec), and closing the
handle (the deferred `db.Close()`). -/
inductive Ev where
  | dbOpen
  | dataOp
  | dbClose
deriving DecidableEq, Repr

/-- Outcome of one handler invocation: the response, the store state
afterwards, and the ordered trace of store events. -/
structure HResult where
  resp : Response
  db : DBState
  trace : List Ev
deriving DecidableEq, Repr

/-- Shared first step of every handler: `dbConnection()`; on failure the
handler responds 500 before any store event. -/
def connFailResp : Response :=
  ⟨500, "Failed to connect to the database\n"⟩

/-- `getAllUsersHandler` of `main.go` (GET `/users`).  `connOk` is
whether `dbConnection()` succeeds. -/
def getAllUsersHandler (connOk : Bool) (st : DBState) : HResult :=
  if !connOk then ⟨connFailResp, st, []⟩
  else
    match GetAllUsers st with
    | .error _ => ⟨⟨404, "User not found\n"⟩, st, [.dbOpen, .dataOp, .dbClose]⟩
    | .ok users =>
        ⟨⟨200, encodeUsers users ++ "\n"⟩, st, [.dbOpen, .dataOp, .dbClose]⟩

/-- `createUserHandler` of `main.go` (POST `/user`).  `body` is the
outcome of `json.Decoder.Decode` on the request body: either a decode
error or the decoded `User` (including whatever `id` the JSON carried). -/
def createUserHandler (connOk : Bool) (st : DBState) (body : Except Unit User) :
    HResult :=
  if !connOk then ⟨connFailResp, st, []⟩
  else
    match body with
    | .error _ => ⟨⟨400, "Invalid input\n"⟩, st, [.dbOpen, .dbClose]⟩
    | .ok user =>
        match Validate user with
        | .error msg => ⟨⟨400, msg ++ "\n"⟩, st, [.dbOpen, .dbClose]⟩
        | .ok _ =>
            match CreateUser st user.Name user.Email with
            | .error _ =>
                ⟨⟨500, "Failed to create user\n"⟩, st, [.dbOpen, .dataOp, .dbClose]⟩
            | .ok st' =>
                ⟨⟨201, "User created successfully\n"⟩, st', [.dbOpen, .dataOp, .dbClose]⟩

/-- `getUserHandler` of `main.go` (GET `/user/{id}`).  `pathId` is the
`{id}` path variable. -/
def getUserHandler (connOk : Bool) (st : DBState) (pathId : Option String) :
    HResult :=
  if !connOk then ⟨connFailResp, st, []⟩
  else
    match parseID pathId with
    | .error _ => ⟨⟨400, "Invalid user ID\n"⟩, st, [.dbOpen, .dbClose]⟩
    | .ok userID =>
        match GetUser st userID with
        | .error _ => ⟨⟨404, "User not found\n"⟩, st, [.dbOpen, .dataOp, .dbClose]⟩
        | .ok user =>
            ⟨⟨200, encodeUser user ++ "\n"⟩, st, [.dbOpen, .dataOp, .dbClose]⟩

/-- `updateUserHandler` of `main.go` (PUT `/user/{id}`): parse the path
id, decode the body, validate, then update; the update uses the path id
and the body's name/email only.  A successful update writes the default
status 200. -/
def updateUserHandler (connOk : Bool) (st : DBState) (pathId : Option String)
    (body : Except Unit User) : HResult :=
  if !connOk then ⟨connFailResp, st, []⟩
  else
    match parseID pathId with
    | .error _ => ⟨⟨400, "Invalid user ID\n"⟩, st, [.dbOpen, .dbClose]⟩
    | .ok userID =>
        match body with
        | .error _ => ⟨⟨400, "Invalid input\n"⟩, st, [.dbOpen, .dbClose]⟩
        | .ok user =>
            match Validate user with
            | .error msg => ⟨⟨400, msg ++ "\n"⟩, st, [.dbOpen, .dbClose]⟩
            | .ok _ =>
                match UpdateUser st userID user.Name user.Email with
                | .error _ =>
                    ⟨⟨500, "Failed to update user\n"⟩, st, [.dbOpen, .dataOp, .dbClose]⟩
                | .ok st' =>
                    ⟨⟨200, "User updated successfully\n"⟩, st', [.dbOpen, .dataOp, .dbClose]⟩

/-- `deleteUserHandler` of `main.go` (DELETE `/user/{id}`).  A successful
delete writes the default status 200. -/
def deleteUserHandler (connOk : Bool) (st : DBState) (pathId : Option String) :
    HResult :=
  if !connOk then ⟨connFailResp, st, []⟩
  else
    match parseID pathId with
    | .error _ => ⟨⟨400, "Invalid user ID\n"⟩, st, [.dbOpen, .dbClose]⟩
    | .ok userID =>
        match DeleteUser st userID with
        | .error _ =>
            ⟨⟨500, "Failed to delete user\n"⟩, st, [.dbOpen, .dataOp, .dbClose]⟩
        | .ok st' =>
            ⟨⟨200, "User deleted successfully\n"⟩, st', [.dbOpen, .dataOp, .dbClose]⟩

/-! ## Claim theorems -/

/-- C1: `Validate` fails when `Name` is empty, then when `Email` is empty,
then when `Email` does not match the email regex, in that order; it
rejects `"not-an-email"` and `"a@b"`, accepts `"a@b.co"`, and succeeds on
any user with non-empty name and regex-matching email. -/
theorem validate_spec :
    (∀ u : User, u.Name = "" → Validate u = .error "name is required")
  ∧ (∀ u : User, u.Name ≠ "" → u.Email = "" → Validate u = .error "email is required")
  ∧ (∀ u : User, u.Name ≠ "" → u.Email ≠ "" → isValidEmail u.Email = false →
      Validate u = .error "invalid email format")
  ∧ isValidEmail "not-an-email" = false
  ∧ isValidEmail "a@b" = false
  ∧ isValidEmail "a@b.co" = true
  ∧ (∀ u : User, u.Name ≠ "" → isValidEmail u.Email = true → Validate u = .ok ()) := by
  refine ⟨fun u h => ?_, fun u h1 h2 => ?_, fun u h1 h2 h3 => ?_, by decide, by decide,
    by decide, fun u h1 h2 => ?_⟩
  · simp [Validate, h]
  · simp [Validate, h1, h2]
  · simp [Validate, h1, h2, h3]
  · have he : u.Email ≠ "" := by
      intro h
      rw [h] at h2
      exact absurd h2 (by decide)
    simp [Validate, h1, he, h2]

/-- Witness for C1 at concrete users. -/
theorem validate_spec_witness :
    Validate ⟨0, "", "a@b.co"⟩ = .error "name is required"
  ∧ Validate ⟨0, "x", ""⟩ = .error "email is required"
  ∧ Validate ⟨0, "x", "a@b"⟩ = .error "invalid email format"
  ∧ Validate ⟨0, "x", "a@b.co"⟩ = .ok () :=
  ⟨validate_spec.1 ⟨0, "", "a@b.co"⟩ rfl,
   validate_spec.2.1 ⟨0, "x", ""⟩ (by decide) rfl,
   validate_spec.2.2.1 ⟨0, "x", "a@b"⟩ (by decide) (by decide) (by decide),
   validate_spec.2.2.2.2.2.2 ⟨0, "x", "a@b.co"⟩ (by decide) (by decide)⟩

/-- C9: the email regex accepts domain parts that begin with or consist of
dots before the TLD, e.g. `"a@..co"` and `"a@.b.co"`, so `Validate`
accepts users with such emails. -/
theorem email_dotted_domains :
    isValidEmail "a@..co" = true ∧ isValidEmail "a@.b.co" = true
  ∧ Validate ⟨0, "x", "a@..co"⟩ = .ok () ∧ Validate ⟨0, "x", "a@.b.co"⟩ = .ok () :=
  ⟨rfl, rfl, rfl, rfl⟩

/-- Counterexample to C2 as stated: on the empty table the List handler
responds 200, but its body is `"null\n"` — the `nil` slice marshalled by
`encoding/json` — which is not the empty JSON array `"[]\n"`. -/
theorem listUsers_empty_counterexample :
    getAllUsersHandler true ⟨[], 1, false⟩ =
      ⟨⟨200, "null\n"⟩, ⟨[], 1, false⟩, [.dbOpen, .dataOp, .dbClose]⟩
  ∧ "null\n" ≠ "[]\n" :=
  ⟨rfl, by decide⟩

/-- C2 (amended): with zero rows, `GetAllUsers` returns an empty sequence
rather than an error, and the List handler responds 200; its body is the
JSON text `null` (a nil slice) when there are no users, and a JSON array
of the users otherwise. -/
theorem listUsers_empty_spec (st : DBState) (hb : st.broken = false) :
    GetAllUsers st = .ok st.rows
  ∧ (st.rows = [] → (getAllUsersHandler true st).resp = ⟨200, "null\n"⟩)
  ∧ (∀ u us, st.rows = u :: us →
      (getAllUsersHandler true st).resp =
        ⟨200, "[" ++ String.intercalate "," ((u :: us).map encodeUser) ++ "]" ++ "\n"⟩) := by
  refine ⟨?_, fun h => ?_, fun u us h => ?_⟩
  · simp [GetAllUsers, hb]
  · simp [getAllUsersHandler, GetAllUsers, hb, h, encodeUsers]
  · simp [getAllUsersHandler, GetAllUsers, hb, h, encodeUsers]

/-- Witness for C2 on the concrete empty table. -/
theorem listUsers_empty_spec_witness :
    GetAllUsers ⟨[], 1, false⟩ = .ok []
  ∧ (getAllUsersHandler true ⟨[], 1, false⟩).resp = ⟨200, "null\n"⟩ :=
  ⟨(listUsers_empty_spec ⟨[], 1, false⟩ rfl).1,
   (listUsers_empty_spec ⟨[], 1, false⟩ rfl).2.1 rfl⟩

/-- C3: `GetUser` on an id present in no row returns the no-rows error
(never a partial user); the Get handler maps every store error to a 404
response; and it responds 200 only when the row exists, with that row's
JSON as body. -/
theorem getUser_notfound_spec :
    (∀ (st : DBState) (id : Int), st.broken = false → (∀ u ∈ st.rows, u.ID ≠ id) →
        GetUser st id = .error .noRows)
  ∧ (∀ (st : DBState) (pathId : Option String) (uid : Int) (e : DBError),
        parseID pathId = .ok uid → GetUser st uid = .error e →
        (getUserHandler true st pathId).resp = ⟨404, "User not found\n"⟩)
  ∧ (∀ (st : DBState) (pathId : Option String),
        (getUserHandler true st pathId).resp.status = 200 →
        ∃ uid u, parseID pathId = .ok uid ∧ GetUser st uid = .ok u ∧ u ∈ st.rows
          ∧ (getUserHandler true st pathId).resp.body = encodeUser u ++ "\n") := by
  refine ⟨fun st id hb h => ?_, fun st pathId uid e hp hg => ?_, fun st pathId h => ?_⟩
  · have : st.rows.find? (fun u => u.ID == id) = none := by
      rw [List.find?_eq_none]
      intro u hu
      simpa using h u hu
    simp [GetUser, hb, this]
  · simp [getUserHandler, hp, hg]
  · rcases hp : parseID pathId with _ | uid
    · simp [getUserHandler, hp] at h
    · rcases hg : GetUser st uid with _ | u
      · simp [getUserHandler, hp, hg] at h
      · refine ⟨uid, u, rfl, hg, ?_, by simp [getUserHandler, hp, hg]⟩
        have hb : st.broken = false := by
          by_contra hb'
          simp only [Bool.not_eq_false] at hb'
          simp [GetUser, hb'] at hg
        rw [GetUser, if_neg (by simp [hb])] at hg
        rcases hf : st.rows.find? (fun u => u.ID == uid) with _ | v
        · simp [hf] at hg
        · rw [hf] at hg
          cases hg
          exact List.mem_of_find?_eq_some hf

/-- Witness for C3 on a one-row table: id 5 is absent (404), id 1 is
present (200 with that row's JSON). -/
theorem getUser_notfound_witness :
    GetUser ⟨[⟨1, "Ann", "a@b.co"⟩], 2, false⟩ 5 = .error .noRows
  ∧ (getUserHandler true ⟨[⟨1, "Ann", "a@b.co"⟩], 2, false⟩ (some "5")).resp
      = ⟨404, "User not found\n"⟩
  ∧ (∃ uid u, parseID (some "1") = .ok uid
      ∧ GetUser ⟨[⟨1, "Ann", "a@b.co"⟩], 2, false⟩ uid = .ok u
      ∧ u ∈ [(⟨1, "Ann", "a@b.co"⟩ : User)]
      ∧ (getUserHandler true ⟨[⟨1, "Ann", "a@b.co"⟩], 2, false⟩ (some "1")).resp.body
          = encodeUser u ++ "\n") :=
  ⟨getUser_notfound_spec.1 ⟨[⟨1, "Ann", "a@b.co"⟩], 2, false⟩ 5 rfl (by decide),
   getUser_notfound_spec.2.1 ⟨[⟨1, "Ann", "a@b.co"⟩], 2, false⟩ (some "5") 5 .noRows rfl rfl,
   getUser_notfound_spec.2.2 ⟨[⟨1, "Ann", "a@b.co"⟩], 2, false⟩ (some "1") rfl⟩

/-- Mapping a row-transformer that fixes every row of the table leaves the
table unchanged. -/
lemma map_fixed_of_no_match {l : List User} {f : User → User}
    (h : ∀ u ∈ l, f u = u) : l.map f = l := by
  induction l with
  | nil => rfl
  | cons a t ih =>
      simp only [List.map_cons, h a (List.mem_cons_self a t)]
      rw [ih fun u hu => h u (List.mem_cons_of_mem a hu)]

/-- Filtering with a predicate every row satisfies keeps the whole table. -/
lemma filter_all_of_no_match {l : List User} {p : User → Bool}
    (h : ∀ u ∈ l, p u = true) : l.filter p = l := by
  induction l with
  | nil => rfl
  | cons a t ih =>
      simp only [List.filter_cons, h a (List.mem_cons_self a t), if_true]
      rw [ih fun u hu => h u (List.mem_cons_of_mem a hu)]

/-- C4: when no row has the requested id, `UpdateUser` and `DeleteUser`
both return success — the same `.ok` a matching update or delete returns —
and the stored table is unchanged. -/
theorem update_delete_noop_spec (st : DBState) (id : Int) (name email : String)
    (hb : st.broken = false) (h : ∀ u ∈ st.rows, u.ID ≠ id) :
    UpdateUser st id name email = .ok st ∧ DeleteUser st id = .ok st := by
  constructor
  · rw [UpdateUser, if_neg (by simp [hb])]
    have hm : st.rows.map
        (fun u => if u.ID == id then { u with Name := name, Email := email } else u)
        = st.rows :=
      map_fixed_of_no_match fun u hu => by simp [h u hu]
    rw [hm]
  · rw [DeleteUser, if_neg (by simp [hb])]
    have hf : st.rows.filter (fun u => !(u.ID == id)) = st.rows :=
      filter_all_of_no_match fun u hu => by simp [h u hu]
    rw [hf]

/-- Witness for C4: updating or deleting absent id 9 on a one-row table. -/
theorem update_delete_noop_witness :
    UpdateUser ⟨[⟨1, "Ann", "a@b.co"⟩], 2, false⟩ 9 "Bob" "b@b.co"
      = .ok ⟨[⟨1, "Ann", "a@b.co"⟩], 2, false⟩
  ∧ DeleteUser ⟨[⟨1, "Ann", "a@b.co"⟩], 2, false⟩ 9
      = .ok ⟨[⟨1, "Ann", "a@b.co"⟩], 2, false⟩ :=
  update_delete_noop_spec ⟨[⟨1, "Ann", "a@b.co"⟩], 2, false⟩ 9 "Bob" "b@b.co" rfl (by decide)

/-- C5: whenever the path id fails to parse, the Get, Update, and Delete
handlers respond 400 and perform no data-access operation at all. -/
theorem bad_id_400_spec (st : DBState) (pathId : Option String)
    (body : Except Unit User) (h : parseID pathId = .error ()) :
    (getUserHandler true st pathId).resp.status = 400
  ∧ Ev.dataOp ∉ (getUserHandler true st pathId).trace
  ∧ (updateUserHandler true st pathId body).resp.status = 400
  ∧ Ev.dataOp ∉ (updateUserHandler true st pathId body).trace
  ∧ (deleteUserHandler true st pathId).resp.status = 400
  ∧ Ev.dataOp ∉ (deleteUserHandler true st pathId).trace := by
  refine ⟨?_, ?_, ?_, ?_, ?_, ?_⟩ <;>
    simp [getUserHandler, updateUserHandler, deleteUserHandler, h]

/-- Witness for C5 at the non-numeric path id `"abc"`. -/
theorem bad_id_400_witness :
    (getUserHandler true ⟨[], 1, false⟩ (some "abc")).resp.status = 400
  ∧ Ev.dataOp ∉ (getUserHandler true ⟨[], 1, false⟩ (some "abc")).trace
  ∧ (updateUserHandler true ⟨[], 1, false⟩ (some "abc")
      (.ok ⟨0, "x", "a@b.co"⟩)).resp.status = 400
  ∧ Ev.dataOp ∉ (updateUserHandler true ⟨[], 1, false⟩ (some "abc")
      (.ok ⟨0, "x", "a@b.co"⟩)).trace
  ∧ (deleteUserHandler true ⟨[], 1, false⟩ (some "abc")).resp.status = 400
  ∧ Ev.dataOp ∉ (deleteUserHandler true ⟨[], 1, false⟩ (some "abc")).trace :=
  bad_id_400_spec ⟨[], 1, false⟩ (some "abc") (.ok ⟨0, "x", "a@b.co"⟩) rfl

/-- C6: with a decodable, valid body (and for Update a parsable id), the
Create handler responds 201 and the Update handler the default 200, each
with its plain-text success message; a store error during the insert or
update yields 500 for both. -/
theorem create_update_success_spec (st : DBState) (user : User)
    (pathId : Option String) (uid : Int)
    (hv : Validate user = .ok ()) (hp : parseID pathId = .ok uid) :
    (st.broken = false →
        (createUserHandler true st (.ok user)).resp
          = ⟨201, "User created successfully\n"⟩
      ∧ (updateUserHandler true st pathId (.ok user)).resp
          = ⟨200, "User updated successfully\n"⟩)
  ∧ (st.broken = true →
        (createUserHandler true st (.ok user)).resp.status = 500
      ∧ (updateUserHandler true st pathId (.ok user)).resp.status = 500) := by
  constructor
  · intro hb
    constructor
    · simp [createUserHandler, hv, CreateUser, hb]
    · simp [updateUserHandler, hp, hv, UpdateUser, hb]
  · intro hb
    constructor
    · simp [createUserHandler, hv, CreateUser, hb]
    · simp [updateUserHandler, hp, hv, UpdateUser, hb]

/-- Witness for C6 on concrete healthy and failing stores. -/
theorem create_update_success_witness :
    (createUserHandler true ⟨[], 1, false⟩ (.ok ⟨0, "x", "a@b.co"⟩)).resp
      = ⟨201, "User created successfully\n"⟩
  ∧ (updateUserHandler true ⟨[], 1, false⟩ (some "1") (.ok ⟨0, "x", "a@b.co"⟩)).resp
      = ⟨200, "User updated successfully\n"⟩
  ∧ (createUserHandler true ⟨[], 1, true⟩ (.ok ⟨0, "x", "a@b.co"⟩)).resp.status = 500
  ∧ (updateUserHandler true ⟨[], 1, true⟩ (some "1")
      (.ok ⟨0, "x", "a@b.co"⟩)).resp.status = 500 :=
  ⟨((create_update_success_spec ⟨[], 1, false⟩ ⟨0, "x", "a@b.co"⟩ (some "1") 1 rfl rfl).1 rfl).1,
   ((create_update_success_spec ⟨[], 1, false⟩ ⟨0, "x", "a@b.co"⟩ (some "1") 1 rfl rfl).1 rfl).2,
   ((create_update_success_spec ⟨[], 1, true⟩ ⟨0, "x", "a@b.co"⟩ (some "1") 1 rfl rfl).2 rfl).1,
   ((create_update_success_spec ⟨[], 1, true⟩ ⟨0, "x", "a@b.co"⟩ (some "1") 1 rfl rfl).2 rfl).2⟩

/-- C7: Update only mutates name and email of the row selected by the
path id: the table's id column is unchanged, rows with a different id
survive untouched, and the id carried by the request body has no effect
on the handler's outcome. -/
theorem update_frame_spec (connOk : Bool) (st : DBState) (pathId : Option String)
    (body : Except Unit User) (uid : Int) (hp : parseID pathId = .ok uid) :
    (updateUserHandler connOk st pathId body).db.rows.map User.ID = st.rows.map User.ID
  ∧ (∀ u ∈ st.rows, u.ID ≠ uid → u ∈ (updateUserHandler connOk st pathId body).db.rows)
  ∧ (∀ newId : Int,
        updateUserHandler connOk st pathId (body.map fun u => { u with ID := newId })
          = updateUserHandler connOk st pathId body) := by
  refine ⟨?_, ?_, ?_⟩
  · cases connOk with
    | false => simp [updateUserHandler]
    | true =>
        rcases body with _ | user
        · simp [updateUserHandler, hp]
        · rcases hv : Validate user with msg | _
          · simp [updateUserHandler, hp, hv]
          · by_cases hb : st.broken
            · simp [updateUserHandler, hp, hv, UpdateUser, hb]
            · simp only [updateUserHandler, hp, hv, UpdateUser, hb]
              simp [List.map_map, Function.comp]
              intro u hu
              by_cases hid : u.ID = uid <;> simp [hid]
  · intro u hu hne
    cases connOk with
    | false => simpa [updateUserHandler] using hu
    | true =>
        rcases body with _ | user
        · simpa [updateUserHandler, hp] using hu
        · rcases hv : Validate user with msg | _
          · simpa [updateUserHandler, hp, hv] using hu
          · by_cases hb : st.broken
            · simpa [updateUserHandler, hp, hv, UpdateUser, hb] using hu
            · simp only [updateUserHandler, hp, hv, UpdateUser, hb]
              simp only [Bool.not_true, Bool.false_eq_true, if_false, ite_false]
              refine List.mem_map.2 ⟨u, hu, ?_⟩
              simp [hne]
  · intro newId
    rcases body with _ | user
    · rfl
    · rfl

/-- Witness for C7 on a one-row table: ids unchanged by a matching update,
a non-matching update keeps the row, and overwriting the body id is
invisible. -/
theorem update_frame_witness :
    (updateUserHandler true ⟨[⟨1, "Ann", "a@b.co"⟩], 2, false⟩ (some "1")
        (.ok ⟨77, "Ann2", "a2@b.co"⟩)).db.rows.map User.ID
      = ([⟨1, "Ann", "a@b.co"⟩] : List User).map User.ID
  ∧ (⟨1, "Ann", "a@b.co"⟩ : User) ∈
      (updateUserHandler true ⟨[⟨1, "Ann", "a@b.co"⟩], 2, false⟩ (some "9")
        (.ok ⟨77, "Ann2", "a2@b.co"⟩)).db.rows
  ∧ updateUserHandler true ⟨[⟨1, "Ann", "a@b.co"⟩], 2, false⟩ (some "1")
        (Except.map (fun (u : User) => { u with ID := 42 }) (.ok ⟨77, "Ann2", "a2@b.co"⟩))
      = updateUserHandler true ⟨[⟨1, "Ann", "a@b.co"⟩], 2, false⟩ (some "1")
        (.ok ⟨77, "Ann2", "a2@b.co"⟩) :=
  ⟨(update_frame_spec true ⟨[⟨1, "Ann", "a@b.co"⟩], 2, false⟩ (some "1")
      (.ok ⟨77, "Ann2", "a2@b.co"⟩) 1 rfl).1,
   (update_frame_spec true ⟨[⟨1, "Ann", "a@b.co"⟩], 2, false⟩ (some "9")
      (.ok ⟨77, "Ann2", "a2@b.co"⟩) 9 rfl).2.1 ⟨1, "Ann", "a@b.co"⟩ (by decide) (by decide),
   (update_frame_spec true ⟨[⟨1, "Ann", "a@b.co"⟩], 2, false⟩ (some "1")
      (.ok ⟨77, "Ann2", "a2@b.co"⟩) 1 rfl).2.2 42⟩

lemma getAllUsers_trace_cases (connOk : Bool) (st : DBState) :
    (getAllUsersHandler connOk st).trace = []
  ∨ (getAllUsersHandler connOk st).trace = [.dbOpen, .dataOp, .dbClose] := by
  cases connOk with
  | false => simp [getAllUsersHandler]
  | true => rcases h : GetAllUsers st with _ | _ <;> simp [getAllUsersHandler, h]

lemma createUser_trace_cases (connOk : Bool) (st : DBState) (body : Except Unit User) :
    (createUserHandler connOk st body).trace = []
  ∨ (createUserHandler connOk st body).trace = [.dbOpen, .dbClose]
  ∨ (createUserHandler connOk st body).trace = [.dbOpen, .dataOp, .dbClose] := by
  cases connOk with
  | false => simp [createUserHandler]
  | true =>
      rcases body with _ | user
      · simp [createUserHandler]
      · rcases hv : Validate user with _ | _
        · simp [createUserHandler, hv]
        · rcases hc : CreateUser st user.Name user.Email with _ | _ <;>
            simp [createUserHandler, hv, hc]

lemma getUser_trace_cases (connOk : Bool) (st : DBState) (pathId : Option String) :
    (getUserHandler connOk st pathId).trace = []
  ∨ (getUserHandler connOk st pathId).trace = [.dbOpen, .dbClose]
  ∨ (getUserHandler connOk st pathId).trace = [.dbOpen, .dataOp, .dbClose] := by
  cases connOk with
  | false => simp [getUserHandler]
  | true =>
      rcases hp : parseID pathId with _ | uid
      · simp [getUserHandler, hp]
      · rcases hg : GetUser st uid with _ | _ <;> simp [getUserHandler, hp, hg]

lemma updateUser_trace_cases (connOk : Bool) (st : DBState) (pathId : Option String)
    (body : Except Unit User) :
    (updateUserHandler connOk st pathId body).trace = []
  ∨ (updateUserHandler connOk st pathId body).trace = [.dbOpen, .dbClose]
  ∨ (updateUserHandler connOk st pathId body).trace = [.dbOpen, .dataOp, .dbClose] := by
  cases connOk with
  | false => simp [updateUserHandler]
  | true =>
      rcases hp : parseID pathId with _ | uid
      · simp [updateUserHandler, hp]
      · rcases body with _ | user
        · simp [updateUserHandler, hp]
        · rcases hv : Validate user with _ | _
          · simp [updateUserHandler, hp, hv]
          · rcases hu : UpdateUser st uid user.Name user.Email with _ | _ <;>
              simp [updateUserHandler, hp, hv, hu]

lemma deleteUser_trace_cases (connOk : Bool) (st : DBState) (pathId : Option String) :
    (deleteUserHandler connOk st pathId).trace = []
  ∨ (deleteUserHandler connOk st pathId).trace = [.dbOpen, .dbClose]
  ∨ (deleteUserHandler connOk st pathId).trace = [.dbOpen, .dataOp, .dbClose] := by
  cases connOk with
  | false => simp [deleteUserHandler]
  | true =>
      rcases hp : parseID pathId with _ | uid
      · simp [deleteUserHandler, hp]
      · rcases hd : DeleteUser st uid with _ | _ <;> simp [deleteUserHandler, hp, hd]

/-- C8: in every handler, once the connection is opened it is closed on
every exit path: whenever the trace contains the open event, its final
event is the deferred close. -/
theorem conn_release_spec (connOk : Bool) (st : DBState) (pathId : Option String)
    (body : Except Unit User) :
    (Ev.dbOpen ∈ (getAllUsersHandler connOk st).trace →
        (getAllUsersHandler connOk st).trace.getLast? = some Ev.dbClose)
  ∧ (Ev.dbOpen ∈ (createUserHandler connOk st body).trace →
        (createUserHandler connOk st body).trace.getLast? = some Ev.dbClose)
  ∧ (Ev.dbOpen ∈ (getUserHandler connOk st pathId).trace →
        (getUserHandler connOk st pathId).trace.getLast? = some Ev.dbClose)
  ∧ (Ev.dbOpen ∈ (updateUserHandler connOk st pathId body).trace →
        (updateUserHandler connOk st pathId body).trace.getLast? = some Ev.dbClose)
  ∧ (Ev.dbOpen ∈ (deleteUserHandler connOk st pathId).trace →
        (deleteUserHandler connOk st pathId).trace.getLast? = some Ev.dbClose) := by
  refine ⟨fun hm => ?_, fun hm => ?_, fun hm => ?_, fun hm => ?_, fun hm => ?_⟩
  · rcases getAllUsers_trace_cases connOk st with h | h <;> rw [h] at hm ⊢ <;> simp_all
  · rcases createUser_trace_cases connOk st body with h | h | h <;>
      rw [h] at hm ⊢ <;> simp_all
  · rcases getUser_trace_cases connOk st pathId with h | h | h <;>
      rw [h] at hm ⊢ <;> simp_all
  · rcases updateUser_trace_cases connOk st pathId body with h | h | h <;>
      rw [h] at hm ⊢ <;> simp_all
  · rcases deleteUser_trace_cases connOk st pathId with h | h | h <;>
      rw [h] at hm ⊢ <;> simp_all

/-- Witness for C8 on concrete inputs covering all five handlers. -/
theorem conn_release_witness :
    (getAllUsersHandler true ⟨[], 1, false⟩).trace.getLast? = some Ev.dbClose
  ∧ (createUserHandler true ⟨[], 1, false⟩ (.error ())).trace.getLast? = some Ev.dbClose
  ∧ (getUserHandler true ⟨[], 1, false⟩ (some "abc")).trace.getLast? = some Ev.dbClose
  ∧ (updateUserHandler true ⟨[], 1, false⟩ (some "1")
      (.ok ⟨0, "x", "a@b.co"⟩)).trace.getLast? = some Ev.dbClose
  ∧ (deleteUserHandler true ⟨[], 1, false⟩ (some "1")).trace.getLast? = some Ev.dbClose :=
  ⟨(conn_release_spec true ⟨[], 1, false⟩ (some "1") (.error ())).1 (by decide),
   (conn_release_spec true ⟨[], 1, false⟩ (some "1") (.error ())).2.1 (by decide),
   (conn_release_spec true ⟨[], 1, false⟩ (some "abc") (.error ())).2.2.1 (by decide),
   (conn_release_spec true ⟨[], 1, false⟩ (some "1") (.ok ⟨0, "x", "a@b.co"⟩)).2.2.2.1 (by decide),
   (conn_release_spec true ⟨[], 1, false⟩ (some "1") (.error ())).2.2.2.2 (by decide)⟩

/-- Digit-by-digit parsing over an all-digit list succeeds with the
accumulator fold's value. -/
lemma parseDigitsAux_all_digits (cs : List Char) :
    ∀ acc : Nat, (∀ c ∈ cs, c.isDigit = true) →
      parseDigitsAux cs acc = some (cs.foldl (fun a c => a * 10 + (c.toNat - 48)) acc) := by
  induction cs with
  | nil => intro acc _; rfl
  | cons c rest ih =>
      intro acc h
      simp only [parseDigitsAux, h c (List.mem_cons_self c rest), if_true, List.foldl_cons]
      exact ih _ fun d hd => h d (List.mem_cons_of_mem c hd)

/-- Parsing a non-empty all-digit list yields its decimal value. -/
lemma parseDigits_all_digits {cs : List Char} (hne : cs ≠ [])
    (h : ∀ c ∈ cs, c.isDigit = true) : parseDigits cs = some (digitsVal cs) := by
  cases cs with
  | nil => exact absurd rfl hne
  | cons c rest => exact parseDigitsAux_all_digits (c :: rest) 0 h

/-- Decimal digits are not sign characters. -/
lemma digit_ne_sign {c : Char} (h : c.isDigit = true) : c ≠ '+' ∧ c ≠ '-' := by
  constructor <;> intro hc <;> rw [hc] at h <;> exact absurd h (by decide)

/-- Counterexample to C10 as stated: the decimal integer numeral
`"9223372036854775808"` (2^63, outside the signed 64-bit int range) is
rejected by `Atoi`, so the Get handler answers 400 and performs no
data-access operation. -/
theorem parseID_overflow_counterexample :
    Atoi "9223372036854775808" = .error ()
  ∧ (getUserHandler true ⟨[], 1, false⟩ (some "9223372036854775808")).resp.status = 400
  ∧ Ev.dataOp ∉ (getUserHandler true ⟨[], 1, false⟩ (some "9223372036854775808")).trace :=
  ⟨rfl, rfl, by decide⟩

/-- C10 (amended): `parseID` accepts every signed decimal integer path
segment whose value fits the signed 64-bit int range — zero, negatives
and explicit `+` signs included — and such a Get, Update, or Delete
request is not rejected with 400 at parsing but proceeds to the
data-access operation with that integer. -/
theorem parseID_signed_spec (ds : List Char) (hne : ds ≠ [])
    (hd : ∀ c ∈ ds, c.isDigit = true) :
    ((digitsVal ds : Int) ≤ maxInt64 →
        Atoi (String.mk ds) = .ok (digitsVal ds)
      ∧ Atoi (String.mk ('+' :: ds)) = .ok (digitsVal ds))
  ∧ ((digitsVal ds : Int) ≤ maxInt64 + 1 →
        Atoi (String.mk ('-' :: ds)) = .ok (-(digitsVal ds : Int)))
  ∧ (∀ (st : DBState) (pathId : Option String) (uid : Int), parseID pathId = .ok uid →
        (getUserHandler true st pathId).resp.status ≠ 400
      ∧ Ev.dataOp ∈ (getUserHandler true st pathId).trace
      ∧ Ev.dataOp ∈ (deleteUserHandler true st pathId).trace
      ∧ (∀ user : User, Validate user = .ok () →
            (updateUserHandler true st pathId (.ok user)).resp.status ≠ 400
          ∧ Ev.dataOp ∈ (updateUserHandler true st pathId (.ok user)).trace)
      ∧ (∀ u : User, GetUser st uid = .ok u →
            (getUserHandler true st pathId).resp = ⟨200, encodeUser u ++ "\n"⟩)) := by
  have hpd : parseDigits ds = some (digitsVal ds) := parseDigits_all_digits hne hd
  refine ⟨fun hle => ⟨?_, ?_⟩, fun hle => ?_, fun st pathId uid hp => ?_⟩
  · cases ds with
    | nil => exact absurd rfl hne
    | cons c rest =>
        obtain ⟨hc1, hc2⟩ := digit_ne_sign (hd c (List.mem_cons_self c rest))
        rw [Atoi]
        simp [hc1, hc2, hpd, hle]
  · rw [Atoi]
    simp [hpd, hle]
  · rw [Atoi]
    simp [hpd, hle]
  · refine ⟨?_, ?_, ?_, fun user hv => ⟨?_, ?_⟩, fun u hu => ?_⟩
    · rcases hg : GetUser st uid with _ | u <;> simp [getUserHandler, hp, hg]
    · rcases hg : GetUser st uid with _ | u <;> simp [getUserHandler, hp, hg]
    · rcases hdel : DeleteUser st uid with _ | st' <;> simp [deleteUserHandler, hp, hdel]
    · rcases hupd : UpdateUser st uid user.Name user.Email with _ | st' <;>
        simp [updateUserHandler, hp, hv, hupd]
    · rcases hupd : UpdateUser st uid user.Name user.Email with _ | st' <;>
        simp [updateUserHandler, hp, hv, hupd]
    · simp [getUserHandler, hp, hu]

/-- Witness for C10 at the digit list `['4', '2']` and the concrete
request id `"-42"`. -/
theorem parseID_signed_witness :
    Atoi (String.mk ['4', '2']) = .ok (digitsVal ['4', '2'])
  ∧ Atoi (String.mk ['+', '4', '2']) = .ok (digitsVal ['4', '2'])
  ∧ Atoi (String.mk ['-', '4', '2']) = .ok (-(digitsVal ['4', '2'] : Int))
  ∧ (getUserHandler true ⟨[], 1, false⟩ (some "-42")).resp.status ≠ 400
  ∧ Ev.dataOp ∈ (getUserHandler true ⟨[], 1, false⟩ (some "-42")).trace
  ∧ Ev.dataOp ∈ (deleteUserHandler true ⟨[], 1, false⟩ (some "-42")).trace :=
  ⟨((parseID_signed_spec ['4', '2'] (by decide) (by decide)).1 (by decide)).1,
   ((parseID_signed_spec ['4', '2'] (by decide) (by decide)).1 (by decide)).2,
   (parseID_signed_spec ['4', '2'] (by decide) (by decide)).2.1 (by decide),
   ((parseID_signed_spec ['4', '2'] (by decide) (by decide)).2.2 ⟨[], 1, false⟩
      (some "-42") (-42) rfl).1,
   ((parseID_signed_spec ['4', '2'] (by decide) (by decide)).2.2 ⟨[], 1, false⟩
      (some "-42") (-42) rfl).2.1,
   ((parseID_signed_spec ['4', '2'] (by decide) (by decide)).2.2 ⟨[], 1, false⟩
      (some "-42") (-42) rfl).2.2.1⟩

end GoCrud
